import Mathlib

/-!
Verification of the membership/messaging core of the `multi-chat-backend`
repository (`src/main.py`, `src/models.py`) against its natural-language
specification.  The Python handlers are shallowly embedded as pure Lean
functions over an explicit relational store; SQLAlchemy sessions become
explicit state passing, `db.commit()` boundaries are made visible where a
handler commits more than once, and `HTTPException` becomes an error value
carrying the HTTP status code and detail string from the source.
-/

set_option maxHeartbeats 1000000

namespace MultiChat

/-- Row of the `users` table (models.py, class User). -/
structure User where
  id : Nat
  full_name : String
  email : String
  password : String
  role : String
  student_id : Option String := none
  staff_id : Option String := none
  avatar_url : Option String := none
deriving Repr, DecidableEq

/-- Row of the `classes` table (models.py, class Class). -/
structure Class where
  id : Nat
  name : String
  semester : Option String := none
  description : Option String := none
  code : String
  owner_id : Nat
deriving Repr, DecidableEq

/-- Row of the `class_members` table (models.py, class ClassMember);
the table carries `UniqueConstraint("class_id", "user_id")`. -/
structure ClassMember where
  id : Nat
  class_id : Nat
  user_id : Nat
  role : String := "student"
  status : String := "pending"
deriving Repr, DecidableEq

/-- Row of the `messages` table (models.py, class Message).  `DateTime`
timestamps are modelled as naturals (any totally ordered time stamp). -/
structure Message where
  id : Nat
  class_id : Nat
  channel : String := "general"
  sender_email : String
  sender_name : String
  content : String := ""
  attachments_json : String := "[]"
  timestamp : Nat
deriving Repr, DecidableEq

/-- The relational store: the four tables plus the auto-increment
counters for their integer primary keys. -/
structure Store where
  users : List User := []
  classes : List Class := []
  members : List ClassMember := []
  messages : List Message := []
  next_user_id : Nat := 1
  next_class_id : Nat := 1
  next_member_id : Nat := 1
  next_message_id : Nat := 1
deriving Repr, DecidableEq

/-- The empty database, as produced by `create_tables.py`. -/
def Store.empty : Store := {}

/-- Outcome of a request handler: a success payload, an
`HTTPException(status_code, detail)`, or an unhandled database
integrity error (a unique-constraint violation surfacing at
`db.commit()`, which FastAPI turns into a 500 response). -/
inductive Res (α : Type) where
  | ok : α → Res α
  | httpError : Nat → String → Res α
  | integrityError : String → Res α
deriving Repr, DecidableEq

/-- Python whitespace, as stripped by `str.strip()`. -/
def isPySpace (c : Char) : Bool :=
  c == ' ' || c == '\t' || c == '\n' || c == '\r' || c.toNat == 11 || c.toNat == 12

/-- Python `s.strip()`. -/
def pyStrip (s : String) : String :=
  String.mk (((s.data.dropWhile isPySpace).reverse.dropWhile isPySpace).reverse)

/-- Python `s.strip().lower()` as used for e-mail / id normalization
(ASCII case mapping). -/
def pyNormLower (s : String) : String :=
  String.mk ((pyStrip s).data.map Char.toLower)

/-- Python `s.strip().upper()` as used for join codes (ASCII case
mapping). -/
def pyNormUpper (s : String) : String :=
  String.mk ((pyStrip s).data.map Char.toUpper)

/-- Python `(s or "").strip() or None` (create_class semester/description). -/
def strippedOrNone (s : Option String) : Option String :=
  let t := pyStrip (s.getD "")
  if t == "" then none else some t

-- ==================================================================
-- Request schemas (the pydantic models of main.py)
-- ==================================================================

/-- Schema `StudentRegister`. -/
structure StudentRegister where
  full_name : String
  student_id : String
  email : String
  password : String
deriving Repr, DecidableEq

/-- Schema `AdminRegister`. -/
structure AdminRegister where
  full_name : String
  email : String
  password : String
deriving Repr, DecidableEq

/-- Schema `TeacherCreate`. -/
structure TeacherCreate where
  full_name : String
  email : String
  staff_id : String
  temp_password : String
deriving Repr, DecidableEq

/-- Schema `CreateClassRequest`. -/
structure CreateClassRequest where
  name : String
  semester : Option String := none
  description : Option String := none
  code : String
  owner_email : String
deriving Repr, DecidableEq

/-- Schema `JoinClassRequest`. -/
structure JoinClassRequest where
  student_email : String
  code : String
deriving Repr, DecidableEq

/-- Schema `ApproveRequest`. -/
structure ApproveRequest where
  class_id : Nat
  student_email : String
deriving Repr, DecidableEq

/-- Schema `RemoveClassRequest`. -/
structure RemoveClassRequest where
  class_id : Nat
  owner_email : String
deriving Repr, DecidableEq

/-- Schema `AttachmentMeta`: one attachment descriptor. -/
structure AttachmentMeta where
  filename : String
  url : String
  content_type : String
deriving Repr, DecidableEq

/-- Schema `MessageCreate`. -/
structure MessageCreate where
  channel : String
  sender_email : String
  sender_name : String
  content : String
  attachments : List AttachmentMeta := []
deriving Repr, DecidableEq

/-- Schema `MessageOut`: the response shape for one message. -/
structure MessageOut where
  id : Nat
  class_id : Nat
  channel : String
  sender_email : String
  sender_name : String
  content : String
  timestamp : Nat
  attachments : List AttachmentMeta := []
deriving Repr, DecidableEq

-- ==================================================================
-- Auth / admin handlers (main.py)
-- ==================================================================

/-- `POST /auth/register/student` (main.py, register_student). -/
def register_student (d : StudentRegister) (st : Store) : Res User × Store :=
  let sid := pyNormLower d.student_id
  let email := pyNormLower d.email
  match st.users.find? (fun u => u.student_id == some sid) with
  | some _ => (.httpError 400 "Student ID already registered", st)
  | none =>
    match st.users.find? (fun u => u.email == email) with
    | some _ => (.httpError 400 "Email already registered", st)
    | none =>
      let user : User :=
        { id := st.next_user_id, full_name := pyStrip d.full_name, email := email,
          password := d.password, role := "student",
          student_id := some sid, staff_id := none }
      (.ok user,
        { st with users := st.users ++ [user], next_user_id := st.next_user_id + 1 })

/-- `POST /auth/register/admin` (main.py, register_admin): refuses to
create a second admin. -/
def register_admin (d : AdminRegister) (st : Store) : Res User × Store :=
  match st.users.find? (fun u => u.role == "admin") with
  | some _ => (.httpError 400 "Admin already exists", st)
  | none =>
    let email := pyNormLower d.email
    match st.users.find? (fun u => u.email == email) with
    | some _ => (.httpError 400 "Email already registered", st)
    | none =>
      let user : User :=
        { id := st.next_user_id, full_name := pyStrip d.full_name, email := email,
          password := d.password, role := "admin",
          student_id := none, staff_id := none }
      (.ok user,
        { st with users := st.users ++ [user], next_user_id := st.next_user_id + 1 })

/-- `POST /admin/teachers` (main.py, create_teacher). -/
def create_teacher (d : TeacherCreate) (st : Store) : Res User × Store :=
  let email := pyNormLower d.email
  let staff_id := pyStrip d.staff_id
  match st.users.find? (fun u => u.email == email) with
  | some _ => (.httpError 400 "Email already registered", st)
  | none =>
    match st.users.find? (fun u => u.staff_id == some staff_id) with
    | some _ => (.httpError 400 "Staff ID already registered", st)
    | none =>
      let user : User :=
        { id := st.next_user_id, full_name := pyStrip d.full_name, email := email,
          password := d.temp_password, role := "teacher",
          student_id := none, staff_id := some staff_id }
      (.ok user,
        { st with users := st.users ++ [user], next_user_id := st.next_user_id + 1 })

/-- `DELETE /admin/teachers/{teacher_id}` (main.py, delete_teacher):
deletes the teacher, every class they own with its members and
messages, and their memberships in other classes, in one commit. -/
def delete_teacher (teacher_id : Nat) (st : Store) : Res String × Store :=
  match st.users.find? (fun u => u.id == teacher_id && u.role == "teacher") with
  | none => (.httpError 404 "Teacher not found", st)
  | some teacher =>
    let ownedIds := (st.classes.filter (fun c => c.owner_id == teacher.id)).map Class.id
    (.ok "Teacher deleted",
      { st with
        members := st.members.filter
          (fun m => !(ownedIds.contains m.class_id) && m.user_id != teacher.id),
        messages := st.messages.filter (fun m => !(ownedIds.contains m.class_id)),
        classes := st.classes.filter (fun c => c.owner_id != teacher.id),
        users := st.users.filter (fun u => u.id != teacher.id) })

/-- `DELETE /admin/students/{student_id}` (main.py, delete_student). -/
def delete_student (student_id : Nat) (st : Store) : Res String × Store :=
  match st.users.find? (fun u => u.id == student_id && u.role == "student") with
  | none => (.httpError 404 "Student not found", st)
  | some stu =>
    (.ok "Student deleted",
      { st with
        members := st.members.filter (fun m => m.user_id != stu.id),
        users := st.users.filter (fun u => u.id != stu.id) })

/-- `POST /profile/avatar` (main.py, upload_avatar).  The filesystem
write is outside the store; the generated `/uploads/avatars/...` URL is
passed in as `url_path`. -/
def upload_avatar (email : String) (content_type : String) (url_path : String)
    (st : Store) : Res User × Store :=
  let e := pyNormLower email
  match st.users.find? (fun u => u.email == e) with
  | none => (.httpError 404 "User not found", st)
  | some user =>
    if !(content_type.startsWith "image/") then
      (.httpError 400 "File must be an image", st)
    else
      let user' := { user with avatar_url := some url_path }
      (.ok user',
        { st with users := st.users.map (fun u => if u.id == user.id then user' else u) })

-- ==================================================================
-- Classes & membership handlers (main.py)
-- ==================================================================

/-- `POST /teacher/classes` (main.py, create_class), with its commit
structure made explicit: the handler performs the class insert and the
owner-membership insert in two separate `db.commit()` calls, so the
result also lists the successive committed states.  The uniqueness
check at each insert reflects the `unique=True` constraint on
`Class.code` and the `(class_id, user_id)` unique constraint on
`ClassMember` declared in models.py; a violating insert raises an
integrity error at commit instead of an HTTP error. -/
def create_class_run (d : CreateClassRequest) (st : Store) :
    Res Class × List Store :=
  let owner_email := pyNormLower d.owner_email
  match st.users.find? (fun u => u.email == owner_email && u.role == "teacher") with
  | none => (.httpError 400 "Teacher not found", [])
  | some owner =>
    match st.classes.find? (fun c => c.code == d.code) with
    | some _ => (.httpError 400 "Join code already used", [])
    | none =>
      let cls : Class :=
        { id := st.next_class_id, name := pyStrip d.name,
          semester := strippedOrNone d.semester,
          description := strippedOrNone d.description,
          code := pyNormUpper d.code, owner_id := owner.id }
      if st.classes.any (fun c => c.code == cls.code) then
        (.integrityError "duplicate key value violates unique constraint on classes.code", [])
      else
        let st1 : Store :=
          { st with classes := st.classes ++ [cls], next_class_id := st.next_class_id + 1 }
        let mem : ClassMember :=
          { id := st1.next_member_id, class_id := cls.id, user_id := owner.id,
            role := "teacher", status := "active" }
        if st1.members.any (fun m => m.class_id == mem.class_id && m.user_id == mem.user_id) then
          (.integrityError "duplicate key value violates unique constraint uq_class_user", [st1])
        else
          let st2 : Store :=
            { st1 with members := st1.members ++ [mem], next_member_id := st1.next_member_id + 1 }
          (.ok cls, [st1, st2])

/-- `create_class` seen end-to-end: the final store is the last
committed state (or the unchanged input store if nothing committed). -/
def create_class (d : CreateClassRequest) (st : Store) : Res Class × Store :=
  let r := create_class_run d st
  (r.1, r.2.getLastD st)

/-- One bulk-delete statement issued by `remove_class`, in source
order, before the single final commit. -/
inductive DelStep where
  | delMessagesOf : Nat → DelStep
  | delMembersOf : Nat → DelStep
  | delClassRow : Nat → DelStep
deriving Repr, DecidableEq

/-- `POST /teacher/remove-class` (main.py, remove_class), also
returning the ordered list of delete statements it issues inside its
single transaction. -/
def remove_class_run (d : RemoveClassRequest) (st : Store) :
    Res String × Store × List DelStep :=
  let owner_email := pyNormLower d.owner_email
  match st.users.find? (fun u => u.email == owner_email && u.role == "teacher") with
  | none => (.httpError 400 "Teacher not found", st, [])
  | some teacher =>
    match st.classes.find? (fun c => c.id == d.class_id && c.owner_id == teacher.id) with
    | none => (.httpError 404 "Class not found", st, [])
    | some cls =>
      (.ok "Class deleted",
        { st with
          messages := st.messages.filter (fun m => m.class_id != cls.id),
          members := st.members.filter (fun m => m.class_id != cls.id),
          classes := st.classes.filter (fun c => c.id != cls.id) },
        [.delMessagesOf cls.id, .delMembersOf cls.id, .delClassRow cls.id])

/-- `remove_class` without the statement trace. -/
def remove_class (d : RemoveClassRequest) (st : Store) : Res String × Store :=
  let r := remove_class_run d st
  (r.1, r.2.1)

/-- `POST /student/join` (main.py, student_join_class). -/
def student_join_class (d : JoinClassRequest) (st : Store) : Res String × Store :=
  let email := pyNormLower d.student_email
  match st.users.find? (fun u => u.email == email && u.role == "student") with
  | none => (.httpError 400 "Student not found", st)
  | some student =>
    match st.classes.find? (fun c => c.code == pyNormUpper d.code) with
    | none => (.httpError 404 "Join code not found", st)
    | some cls =>
      match st.members.find? (fun m => m.class_id == cls.id && m.user_id == student.id) with
      | some existing =>
        if existing.status == "active" then (.ok "Already a member", st)
        else if existing.status == "pending" then (.ok "Request already pending", st)
        else
          (.ok "Request re-sent",
            { st with
              members := st.members.map
                (fun m => if m.id == existing.id then { m with status := "pending" } else m) })
      | none =>
        let membership : ClassMember :=
          { id := st.next_member_id, class_id := cls.id, user_id := student.id,
            role := "student", status := "pending" }
        (.ok "Join request sent",
          { st with members := st.members ++ [membership],
                    next_member_id := st.next_member_id + 1 })

/-- `POST /teacher/approve` (main.py, teacher_approve). -/
def teacher_approve (d : ApproveRequest) (st : Store) : Res String × Store :=
  let email := pyNormLower d.student_email
  match st.users.find? (fun u => u.email == email && u.role == "student") with
  | none => (.httpError 400 "Student not found", st)
  | some student =>
    match st.members.find? (fun m => m.class_id == d.class_id && m.user_id == student.id) with
    | none => (.httpError 404 "Membership not found", st)
    | some m =>
      (.ok "Student approved",
        { st with
          members := st.members.map
            (fun x => if x.id == m.id then { x with status := "active" } else x) })

-- ==================================================================
-- JSON serialization of attachment metadata (Python json on the
-- fragment used by main.py: arrays of string-valued objects)
-- ==================================================================

/-- Lowercase hexadecimal digit character (Python json emits lowercase
hex in its \uXXXX escapes). -/
def hexDigitChar (n : Nat) : Char :=
  if n < 10 then Char.ofNat (48 + n) else Char.ofNat (87 + n)

/-- Value of a hexadecimal digit character. -/
def hexDigitVal (c : Char) : Option Nat :=
  if 48 ≤ c.toNat ∧ c.toNat ≤ 57 then some (c.toNat - 48)
  else if 97 ≤ c.toNat ∧ c.toNat ≤ 102 then some (c.toNat - 87)
  else if 65 ≤ c.toNat ∧ c.toNat ≤ 70 then some (c.toNat - 55)
  else none

/-- Python `json.dumps` escaping of one character inside a string
literal: `"` and `\` are backslash-escaped, the named control escapes
\n \r \t \b \f are used, any other control character becomes \u00XX,
and everything else is kept literal.  (CPython with `ensure_ascii=True`
additionally transcribes non-ASCII characters as \uXXXX; that
transcription is invisible to `json.loads` and is not modelled.) -/
def escapeChar (c : Char) : List Char :=
  if c = '"' then ['\\', '"']
  else if c = '\\' then ['\\', '\\']
  else if c = '\n' then ['\\', 'n']
  else if c = '\r' then ['\\', 'r']
  else if c = '\t' then ['\\', 't']
  else if c.toNat = 8 then ['\\', 'b']
  else if c.toNat = 12 then ['\\', 'f']
  else if c.toNat < 32 then
    ['\\', 'u', '0', '0', hexDigitChar (c.toNat / 16), hexDigitChar (c.toNat % 16)]
  else [c]

/-- Escape every character of a string body. -/
def escapeBody : List Char → List Char
  | [] => []
  | c :: cs => escapeChar c ++ escapeBody cs

/-- A JSON string literal: quote, escaped body, quote. -/
def qstr (s : String) : List Char :=
  '"' :: (escapeBody s.data ++ ['"'])

/-- Inverse of the named single-character escapes accepted by
`json.loads` after a backslash. -/
def unescapeChar (c : Char) : Option Char :=
  if c = '"' then some '"'
  else if c = '\\' then some '\\'
  else if c = '/' then some '/'
  else if c = 'n' then some '\n'
  else if c = 'r' then some '\r'
  else if c = 't' then some '\t'
  else if c = 'b' then some (Char.ofNat 8)
  else if c = 'f' then some (Char.ofNat 12)
  else none

/-- Parse the body of a JSON string literal (the opening quote already
consumed) up to its closing quote; returns the decoded characters and
the remaining input. -/
def parseStrBody : List Char → Option (List Char × List Char)
  | [] => none
  | c :: rest =>
    if c = '"' then some ([], rest)
    else if c = '\\' then
      match rest with
      | [] => none
      | d :: rest2 =>
        if d = 'u' then
          match rest2 with
          | h1 :: h2 :: h3 :: h4 :: rest3 =>
            match hexDigitVal h1, hexDigitVal h2, hexDigitVal h3, hexDigitVal h4 with
            | some v1, some v2, some v3, some v4 =>
              match parseStrBody rest3 with
              | some (s, r) => some (Char.ofNat (4096 * v1 + 256 * v2 + 16 * v3 + v4) :: s, r)
              | none => none
            | _, _, _, _ => none
          | _ => none
        else
          match unescapeChar d with
          | some e =>
            match parseStrBody rest2 with
            | some (s, r) => some (e :: s, r)
            | none => none
          | none => none
    else
      match parseStrBody rest with
      | some (s, r) => some (c :: s, r)
      | none => none

/-- Parse one `"key": "value"` pair (with json.dumps's `": "`
separator, the format stored by the handler). -/
def parseKV (cs : List Char) : Option ((String × String) × List Char) :=
  match cs with
  | '"' :: cs1 =>
    match parseStrBody cs1 with
    | some (k, r1) =>
      match r1 with
      | ':' :: ' ' :: '"' :: r2 =>
        match parseStrBody r2 with
        | some (v, r3) => some ((String.mk k, String.mk v), r3)
        | none => none
      | _ => none
    | none => none
  | _ => none

/-- Parse the pair list of a non-empty object, after its opening
brace, consuming the closing brace. -/
def parsePairs : Nat → List Char → Option (List (String × String) × List Char)
  | 0, _ => none
  | fuel + 1, cs =>
    match parseKV cs with
    | none => none
    | some (kv, r) =>
      match r with
      | ',' :: ' ' :: r2 =>
        match parsePairs fuel r2 with
        | some (kvs, r3) => some (kv :: kvs, r3)
        | none => none
      | '\x7d' :: r2 => some ([kv], r2)
      | _ => none

/-- Parse one object into its (ordered) key/value pairs. -/
def parseObj (fuel : Nat) (cs : List Char) : Option (List (String × String) × List Char) :=
  match cs with
  | '\x7b' :: '\x7d' :: r => some ([], r)
  | '\x7b' :: r => parsePairs fuel r
  | _ => none

/-- Parse the comma-separated objects of a non-empty array, consuming
the closing bracket. -/
def parseItems : Nat → List Char → Option (List (List (String × String)) × List Char)
  | 0, _ => none
  | fuel + 1, cs =>
    match parseObj fuel cs with
    | none => none
    | some (d, r) =>
      match r with
      | ',' :: ' ' :: r2 =>
        match parseItems fuel r2 with
        | some (ds, r3) => some (d :: ds, r3)
        | none => none
      | ']' :: r2 => some ([d], r2)
      | _ => none

/-- `json.loads` restricted to the sublanguage `json.dumps` produces
for attachment metadata (main.py): an array of objects whose values
are strings.  Each element is returned as its ordered key/value list. -/
def json_loads_list (s : String) : Option (List (List (String × String))) :=
  match s.data with
  | '[' :: ']' :: rest => if rest = [] then some [] else none
  | '[' :: rest =>
    match parseItems (s.length + 1) rest with
    | some (ds, []) => some ds
    | _ => none
  | _ => none

/-- One `"key": "value"` rendering with json.dumps's separators. -/
def renderPair (k v : String) : List Char :=
  qstr k ++ ':' :: ' ' :: qstr v

/-- `json.dumps` of one pydantic `AttachmentMeta.dict()`: pydantic
preserves field declaration order (filename, url, content_type). -/
def renderAttachment (a : AttachmentMeta) : List Char :=
  '\x7b' :: (renderPair "filename" a.filename ++
    ',' :: ' ' :: renderPair "url" a.url ++
    ',' :: ' ' :: renderPair "content_type" a.content_type ++ ['\x7d'])

/-- Comma-separated rendering of the array elements. -/
def renderItems : List AttachmentMeta → List Char
  | [] => []
  | [a] => renderAttachment a
  | a :: rest => renderAttachment a ++ ',' :: ' ' :: renderItems rest

/-- `json.dumps([a.dict() for a in data.attachments])` (main.py,
post_class_message), with Python's default separators. -/
def json_dumps_attachments (l : List AttachmentMeta) : String :=
  match l with
  | [] => "[]"
  | _ => String.mk ('[' :: (renderItems l ++ [']']))

/-- `dict.get(k, "")` on a parsed JSON object: Python keeps the last
occurrence of a duplicated key. -/
def dictGet (d : List (String × String)) (k : String) : String :=
  match d.reverse.find? (fun p => p.1 == k) with
  | some p => p.2
  | none => ""

/-- Rebuild one `AttachmentMeta` from a parsed object, with the
defaulting `a.get(key, "")` lookups of main.py's message_to_out. -/
def attachmentOfDict (d : List (String × String)) : AttachmentMeta :=
  { filename := dictGet d "filename", url := dictGet d "url",
    content_type := dictGet d "content_type" }

/-- main.py, message_to_out: decode `attachments_json` (exceptions fall
back to the empty list) and assemble the response record.  The parsed
elements are always objects here, so the source's skip of non-dict
elements cannot fire. -/
def message_to_out (msg : Message) : MessageOut :=
  let attachments :=
    match json_loads_list msg.attachments_json with
    | none => []
    | some ds => ds.map attachmentOfDict
  { id := msg.id, class_id := msg.class_id, channel := msg.channel,
    sender_email := msg.sender_email, sender_name := msg.sender_name,
    content := msg.content, timestamp := msg.timestamp,
    attachments := attachments }

-- ==================================================================
-- Message handlers (main.py)
-- ==================================================================

/-- The SQL `ORDER BY timestamp ASC, id ASC` comparison of
get_class_messages, as a boolean total preorder. -/
def msgLe (a b : Message) : Bool :=
  Nat.blt a.timestamp b.timestamp ||
    (a.timestamp == b.timestamp && Nat.ble a.id b.id)

/-- `GET /classes/{class_id}/messages` (main.py, get_class_messages). -/
def get_class_messages (class_id : Nat) (channel : String) (st : Store) :
    Res (List MessageOut) :=
  match st.classes.find? (fun c => c.id == class_id) with
  | none => .httpError 404 "Class not found"
  | some _ =>
    let msgs := (st.messages.filter
      (fun m => m.class_id == class_id && m.channel == channel)).mergeSort msgLe
    .ok (msgs.map message_to_out)

/-- `POST /classes/{class_id}/messages` (main.py, post_class_message).
The `datetime.utcnow` column default is the external input `now`. -/
def post_class_message (class_id : Nat) (d : MessageCreate) (now : Nat) (st : Store) :
    Res MessageOut × Store :=
  match st.classes.find? (fun c => c.id == class_id) with
  | none => (.httpError 404 "Class not found", st)
  | some _ =>
    let msg : Message :=
      { id := st.next_message_id, class_id := class_id, channel := d.channel,
        sender_email := d.sender_email, sender_name := d.sender_name,
        content := d.content,
        attachments_json := json_dumps_attachments d.attachments,
        timestamp := now }
    (.ok (message_to_out msg),
      { st with messages := st.messages ++ [msg],
                next_message_id := st.next_message_id + 1 })

/-- `DELETE /classes/{class_id}/messages/{message_id}` (main.py,
delete_message).  `teacher_email` is an optional query parameter; a
missing or empty value is rejected up front (Python truthiness). -/
def delete_message (class_id message_id : Nat) (teacher_email : Option String)
    (st : Store) : Res String × Store :=
  match teacher_email with
  | none => (.httpError 400 "teacher_email is required", st)
  | some te =>
    if te == "" then (.httpError 400 "teacher_email is required", st)
    else
      let email := pyNormLower te
      match st.users.find? (fun u => u.email == email && u.role == "teacher") with
      | none => (.httpError 403 "Teacher not found", st)
      | some teacher =>
        match st.classes.find? (fun c => c.id == class_id && c.owner_id == teacher.id) with
        | none => (.httpError 403 "You are not the owner of this class", st)
        | some _ =>
          match st.messages.find? (fun m => m.id == message_id && m.class_id == class_id) with
          | none => (.httpError 404 "Message not found", st)
          | some msg =>
            (.ok "Message deleted",
              { st with messages := st.messages.filter (fun m => m.id != msg.id) })

-- ==================================================================
-- Reachability: every state-mutating handler of main.py
-- ==================================================================

/-- One committed transition of the system: some handler of main.py
runs against the store.  `create_class` contributes every committed
state of its two-commit sequence (a crash between the two commits
leaves the first committed state behind). -/
inductive Step : Store → Store → Prop where
  | registerStudent (d : StudentRegister) (st : Store) :
      Step st (register_student d st).2
  | registerAdmin (d : AdminRegister) (st : Store) :
      Step st (register_admin d st).2
  | createTeacher (d : TeacherCreate) (st : Store) :
      Step st (create_teacher d st).2
  | deleteTeacher (teacher_id : Nat) (st : Store) :
      Step st (delete_teacher teacher_id st).2
  | deleteStudent (student_id : Nat) (st : Store) :
      Step st (delete_student student_id st).2
  | uploadAvatar (email content_type url_path : String) (st : Store) :
      Step st (upload_avatar email content_type url_path st).2
  | createClass (d : CreateClassRequest) (st st' : Store) :
      st' ∈ (create_class_run d st).2 → Step st st'
  | removeClass (d : RemoveClassRequest) (st : Store) :
      Step st (remove_class d st).2
  | joinClass (d : JoinClassRequest) (st : Store) :
      Step st (student_join_class d st).2
  | approve (d : ApproveRequest) (st : Store) :
      Step st (teacher_approve d st).2
  | postMessage (class_id : Nat) (d : MessageCreate) (now : Nat) (st : Store) :
      Step st (post_class_message class_id d now st).2
  | deleteMessage (class_id message_id : Nat) (teacher_email : Option String) (st : Store) :
      Step st (delete_message class_id message_id teacher_email st).2

/-- Stores reachable from the freshly created empty database. -/
inductive Reachable : Store → Prop where
  | init : Reachable Store.empty
  | step {st st' : Store} : Reachable st → Step st st' → Reachable st'

-- ==================================================================
-- Concrete fixtures for witnesses and counterexamples
-- ==================================================================

/-- Fixture: a teacher who owns the fixture class. -/
def teacherA : User :=
  { id := 1, full_name := "Teacher A", email := "t@x.com", password := "p",
    role := "teacher", staff_id := some "s1" }

/-- Fixture: a registered student. -/
def studentS : User :=
  { id := 2, full_name := "Student S", email := "a@x.com", password := "p",
    role := "student", student_id := some "S1" }

/-- Fixture: a second teacher, not the owner of the fixture class. -/
def teacherB : User :=
  { id := 3, full_name := "Teacher B", email := "b@x.com", password := "p",
    role := "teacher", staff_id := some "s2" }

/-- Fixture: a class with join code ABC1 owned by teacher A. -/
def classA : Class :=
  { id := 1, name := "Class A", code := "ABC1", owner_id := 1 }

/-- Fixture: the owner membership row of the fixture class. -/
def memA : ClassMember :=
  { id := 1, class_id := 1, user_id := 1, role := "teacher", status := "active" }

/-- Fixture: a message in the general channel of the fixture class. -/
def msg1 : Message :=
  { id := 1, class_id := 1, channel := "general", sender_email := "a@x.com",
    sender_name := "Student S", content := "hi", timestamp := 5 }

/-- Fixture store: two teachers, one student, one class with its owner
membership and one message. -/
def baseStore : Store :=
  { users := [teacherA, studentS, teacherB], classes := [classA],
    members := [memA], messages := [msg1],
    next_user_id := 4, next_class_id := 2, next_member_id := 2,
    next_message_id := 2 }

-- ==================================================================
-- Claim C3 (code_bug)
-- ==================================================================

/-- Claim C3: the spec says join codes are compared uppercase, so a
CreateClass whose code differs from an existing code only in letter
case must fail with Conflict.  The code normalizes the code only when
inserting (`data.code.strip().upper()`), while the duplicate check
compares the raw input (`Class.code == data.code`), so with class code
"ABC1" in the store a request with code "abc1" passes the check and
the insert then violates the unique constraint on `classes.code`: the
handler ends in an unhandled integrity error (HTTP 500), not the
Conflict response, and nothing is committed. -/
theorem create_class_case_insensitive_bug :
    (∃ c ∈ baseStore.classes, c.code = "ABC1") ∧
    pyNormUpper "abc1" = "ABC1" ∧
    create_class_run
      { name := "D", code := "abc1", owner_email := "t@x.com" } baseStore =
      (.integrityError "duplicate key value violates unique constraint on classes.code",
        []) := by
  refine ⟨⟨classA, by decide⟩, by decide, by decide⟩

-- ==================================================================
-- Claim C9 (corrected)
-- ==================================================================

/-- Claim C9 counterexample: a JoinClass whose student_email resolves
to no student does not fail with NotFound (HTTP 404): the handler
raises HTTP 400 "Student not found".  (No membership row is created:
the store is returned unchanged.) -/
theorem student_join_class_notfound_cex :
    student_join_class { student_email := "zz@x.com", code := "ABC1" } baseStore =
      (.httpError 400 "Student not found", baseStore) ∧ (400 : Nat) ≠ 404 :=
  ⟨by decide, by decide⟩

/-- Claim C9 as amended: an invalid student_email fails with HTTP 400
(Bad-Request style, detail "Student not found"), while an unresolvable
join code fails with NotFound (HTTP 404); in both cases the store is
returned unchanged, so no membership row is created or modified. -/
theorem student_join_class_invalid_errors (d : JoinClassRequest) (st : Store) :
    (st.users.find?
        (fun u => u.email == pyNormLower d.student_email && u.role == "student") = none →
      student_join_class d st = (.httpError 400 "Student not found", st)) ∧
    (∀ s, st.users.find?
        (fun u => u.email == pyNormLower d.student_email && u.role == "student") = some s →
      st.classes.find? (fun c => c.code == pyNormUpper d.code) = none →
      student_join_class d st = (.httpError 404 "Join code not found", st)) := by
  constructor
  · intro h
    simp [student_join_class, h]
  · intro s hs hc
    simp [student_join_class, hs, hc]

/-- Witness for the amended C9: both failure modes at concrete inputs,
with the store unchanged. -/
theorem student_join_class_invalid_errors_witness :
    student_join_class { student_email := "zz@x.com", code := "ABC1" } baseStore =
      (.httpError 400 "Student not found", baseStore) ∧
    student_join_class { student_email := "a@x.com", code := "NOPE" } baseStore =
      (.httpError 404 "Join code not found", baseStore) :=
  ⟨(student_join_class_invalid_errors
      { student_email := "zz@x.com", code := "ABC1" } baseStore).1 (by decide),
   (student_join_class_invalid_errors
      { student_email := "a@x.com", code := "NOPE" } baseStore).2 studentS
      (by decide) (by decide)⟩

-- ==================================================================
-- Claim C5 (confirmed)
-- ==================================================================

/-- Claim C5: when the owner does not resolve to a teacher, or the
class does not exist or is not owned by owner_email, RemoveClass fails
(HTTP 400 "Teacher not found" resp. HTTP 404 "Class not found") and
the store is returned unchanged: the class, its memberships and its
messages all remain exactly as before the call. -/
theorem remove_class_failure_unchanged (d : RemoveClassRequest) (st : Store) :
    (st.users.find?
        (fun u => u.email == pyNormLower d.owner_email && u.role == "teacher") = none →
      remove_class d st = (.httpError 400 "Teacher not found", st)) ∧
    (∀ t, st.users.find?
        (fun u => u.email == pyNormLower d.owner_email && u.role == "teacher") = some t →
      st.classes.find? (fun c => c.id == d.class_id && c.owner_id == t.id) = none →
      remove_class d st = (.httpError 404 "Class not found", st)) := by
  constructor
  · intro h
    simp [remove_class, remove_class_run, h]
  · intro t ht hc
    simp [remove_class, remove_class_run, ht, hc]

/-- Witness for C5: teacher B attempts to delete the class owned by
teacher A and gets NotFound with the store unchanged (the class and
its message remain queryable). -/
theorem remove_class_failure_unchanged_witness :
    remove_class { class_id := 1, owner_email := "b@x.com" } baseStore =
      (.httpError 404 "Class not found", baseStore) :=
  (remove_class_failure_unchanged
      { class_id := 1, owner_email := "b@x.com" } baseStore).2 teacherB
    (by decide) (by decide)

-- ==================================================================
-- Claim C4 (corrected: the cascade order is messages before members)
-- ==================================================================

/-- Claim C4 counterexample: a successful RemoveClass issues its
cascade deletes with the messages delete FIRST and the memberships
delete second, not memberships before messages as the claim states. -/
theorem remove_class_order_cex :
    (remove_class_run { class_id := 1, owner_email := "t@x.com" } baseStore).2.2 =
      [.delMessagesOf 1, .delMembersOf 1, .delClassRow 1] ∧
    ([DelStep.delMessagesOf 1, .delMembersOf 1, .delClassRow 1] ≠
      [DelStep.delMembersOf 1, .delMessagesOf 1, .delClassRow 1]) :=
  ⟨by decide, by decide⟩

/-- Claim C4 as amended: for every class owned by owner_email,
RemoveClass deletes all messages and then all memberships of that
class, in that order (messages before memberships), before deleting
the class row itself, all inside one transaction committed at the end;
afterwards no stale membership or message rows for that class id
remain. -/
theorem remove_class_cascade (d : RemoveClassRequest) (st : Store)
    (s : String) (st' : Store) (trace : List DelStep)
    (h : remove_class_run d st = (.ok s, st', trace)) :
    ∃ cls ∈ st.classes, cls.id = d.class_id ∧
      trace = [.delMessagesOf cls.id, .delMembersOf cls.id, .delClassRow cls.id] ∧
      st'.messages = st.messages.filter (fun m => m.class_id != cls.id) ∧
      st'.members = st.members.filter (fun m => m.class_id != cls.id) ∧
      st'.classes = st.classes.filter (fun c => c.id != cls.id) ∧
      (∀ m ∈ st'.messages, m.class_id ≠ d.class_id) ∧
      (∀ m ∈ st'.members, m.class_id ≠ d.class_id) ∧
      (∀ c ∈ st'.classes, c.id ≠ d.class_id) := by
  cases howner : st.users.find?
      (fun u => u.email == pyNormLower d.owner_email && u.role == "teacher") with
  | none => simp [remove_class_run, howner] at h
  | some teacher =>
    cases hcls : st.classes.find?
        (fun c => c.id == d.class_id && c.owner_id == teacher.id) with
    | none => simp [remove_class_run, howner, hcls] at h
    | some cls =>
      simp only [remove_class_run, howner, hcls, Prod.mk.injEq, Res.ok.injEq] at h
      obtain ⟨-, hst, htrace⟩ := h
      have hmem : cls ∈ st.classes := List.mem_of_find?_eq_some hcls
      have hpred := List.find?_some hcls
      simp only [Bool.and_eq_true, beq_iff_eq] at hpred
      obtain ⟨hid, -⟩ := hpred
      refine ⟨cls, hmem, hid, htrace.symm, ?_, ?_, ?_, ?_, ?_, ?_⟩
      · rw [← hst]
      · rw [← hst]
      · rw [← hst]
      · intro m hm
        rw [← hst] at hm
        have hne := (List.mem_filter.mp hm).2
        simp only [bne_iff_ne, ne_eq] at hne
        rw [← hid]; exact hne
      · intro m hm
        rw [← hst] at hm
        have hne := (List.mem_filter.mp hm).2
        simp only [bne_iff_ne, ne_eq] at hne
        rw [← hid]; exact hne
      · intro c hc
        rw [← hst] at hc
        have hne := (List.mem_filter.mp hc).2
        simp only [bne_iff_ne, ne_eq] at hne
        rw [← hid]; exact hne

/-- Witness for the amended C4: deleting the fixture class issues the
messages delete, then the memberships delete, then the class-row
delete. -/
theorem remove_class_cascade_witness :
    (remove_class_run { class_id := 1, owner_email := "t@x.com" } baseStore).2.2 =
      [.delMessagesOf 1, .delMembersOf 1, .delClassRow 1] := by
  obtain ⟨cls, hmem, hid, htrace, -⟩ :=
    remove_class_cascade { class_id := 1, owner_email := "t@x.com" } baseStore
      "Class deleted"
      (remove_class_run { class_id := 1, owner_email := "t@x.com" } baseStore).2.1
      (remove_class_run { class_id := 1, owner_email := "t@x.com" } baseStore).2.2
      rfl
  rw [htrace, hid]

-- ==================================================================
-- Claim C2 (corrected: two separate commits, not one atomic unit)
-- ==================================================================

/-- Claim C2 counterexample: a successful CreateClass commits an
intermediate state in which the new class row is persisted while no
membership row for it exists at all, so the class-plus-owner-membership
insertion is not a single all-or-nothing unit (a failure after the
first commit leaves only the class row behind). -/
theorem create_class_atomicity_cex :
    ∃ stMid ∈ (create_class_run
        { name := "D", code := "XYZ2", owner_email := "t@x.com" } baseStore).2,
      ∃ c ∈ stMid.classes,
        ∀ m ∈ stMid.members, ¬(m.class_id = c.id ∧ m.user_id = c.owner_id) := by
  decide

/-- Claim C2 as amended: every successful CreateClass ends with both
the class row and the active "teacher" owner-membership row present,
but they are inserted by two successive commits: the first committed
state already contains the class while its membership table is still
exactly the pre-call one (so the pair is not written atomically). -/
theorem create_class_two_commits (d : CreateClassRequest) (st : Store)
    (c : Class) (commits : List Store)
    (h : create_class_run d st = (.ok c, commits)) :
    ∃ st1 st2 mem, commits = [st1, st2] ∧
      create_class d st = (.ok c, st2) ∧
      st1.classes = st.classes ++ [c] ∧ st1.members = st.members ∧
      st2.classes = st1.classes ∧ st2.members = st1.members ++ [mem] ∧
      mem.class_id = c.id ∧ mem.user_id = c.owner_id ∧
      mem.role = "teacher" ∧ mem.status = "active" := by
  have h0 : create_class_run d st = (.ok c, commits) := h
  cases howner : st.users.find?
      (fun u => u.email == pyNormLower d.owner_email && u.role == "teacher") with
  | none => simp [create_class_run, howner] at h
  | some owner =>
    cases hcode : st.classes.find? (fun c => c.code == d.code) with
    | some _ => simp [create_class_run, howner, hcode] at h
    | none =>
      simp only [create_class_run, howner, hcode] at h
      split at h
      · simp at h
      · split at h
        · simp at h
        · simp only [Prod.mk.injEq, Res.ok.injEq] at h
          obtain ⟨hcls, hcommits⟩ := h
          subst hcls
          refine ⟨_, _, _, hcommits.symm, ?_, rfl, rfl, rfl, rfl, rfl, rfl, rfl, rfl⟩
          unfold create_class
          rw [h0, ← hcommits]
          rfl

/-- Witness for the amended C2: creating a class with a fresh code in
the fixture store commits twice; the first committed state carries the
class but only the pre-existing memberships. -/
theorem create_class_two_commits_witness :
    ∃ st1 st2 mem,
      (create_class_run { name := "D", code := "XYZ2", owner_email := "t@x.com" }
          baseStore).2 = [st1, st2] ∧
      st1.members = baseStore.members ∧
      st2.members = st1.members ++ [mem] ∧
      mem.class_id = 2 ∧ mem.role = "teacher" ∧ mem.status = "active" := by
  obtain ⟨st1, st2, mem, hcommits, -, -, hm1, -, hm2, hmc, -, hmr, hms⟩ :=
    create_class_two_commits { name := "D", code := "XYZ2", owner_email := "t@x.com" }
      baseStore
      { id := 2, name := "D", semester := none, description := none,
        code := "XYZ2", owner_id := 1 }
      (create_class_run { name := "D", code := "XYZ2", owner_email := "t@x.com" }
          baseStore).2
      rfl
  exact ⟨st1, st2, mem, hcommits, hm1, hm2, hmc, hmr, hms⟩

-- ==================================================================
-- Claim C1 (confirmed): the JoinClass state policy
-- ==================================================================

/-- Claim C1: for a valid student and join code, JoinClass follows
exactly the spec state policy on the (class, student) membership: with
no prior row a new pending row is created; an active row is a no-op
with an informational response; a pending row is a no-op; a removed
row is reset to pending.  Moreover two consecutive JoinClass calls
starting from no prior membership answer pending both times, leave
every row for the pair with status pending, and leave exactly one row
for the pair (no duplicate row). -/
theorem student_join_class_policy (d : JoinClassRequest) (st : Store)
    (student : User) (cls : Class)
    (hs : st.users.find?
        (fun u => u.email == pyNormLower d.student_email && u.role == "student") =
      some student)
    (hc : st.classes.find? (fun c => c.code == pyNormUpper d.code) = some cls) :
    (∀ ex, st.members.find?
        (fun m => m.class_id == cls.id && m.user_id == student.id) = some ex →
      ((ex.status = "active" →
          student_join_class d st = (.ok "Already a member", st)) ∧
       (ex.status = "pending" →
          student_join_class d st = (.ok "Request already pending", st)) ∧
       (ex.status = "removed" →
          student_join_class d st = (.ok "Request re-sent",
            { st with
              members :=
                st.members.map
                  (fun m => if m.id == ex.id then { m with status := "pending" } else m) })))) ∧
    (st.members.find?
        (fun m => m.class_id == cls.id && m.user_id == student.id) = none →
      student_join_class d st = (.ok "Join request sent",
        { st with
          members := st.members ++
            [{ id := st.next_member_id, class_id := cls.id, user_id := student.id,
               role := "student", status := "pending" }],
          next_member_id := st.next_member_id + 1 }) ∧
      student_join_class d (student_join_class d st).2 =
        (.ok "Request already pending", (student_join_class d st).2) ∧
      ((student_join_class d st).2.members.filter
          (fun m => m.class_id == cls.id && m.user_id == student.id)).length = 1 ∧
      (∀ m ∈ (student_join_class d st).2.members.filter
          (fun m => m.class_id == cls.id && m.user_id == student.id),
        m.status = "pending")) := by
  constructor
  · intro ex hex
    refine ⟨?_, ?_, ?_⟩
    · intro hst
      simp [student_join_class, hs, hc, hex, hst]
    · intro hst
      simp [student_join_class, hs, hc, hex, hst]
    · intro hst
      simp [student_join_class, hs, hc, hex, hst]
  · intro hnone
    have hfirst : student_join_class d st = (.ok "Join request sent",
        { st with
          members := st.members ++
            [{ id := st.next_member_id, class_id := cls.id, user_id := student.id,
               role := "student", status := "pending" }],
          next_member_id := st.next_member_id + 1 }) := by
      simp [student_join_class, hs, hc, hnone]
    refine ⟨hfirst, ?_, ?_, ?_⟩
    · rw [hfirst]
      have hfind2 : ({ st with
          members := st.members ++
            [{ id := st.next_member_id, class_id := cls.id, user_id := student.id,
               role := "student", status := "pending" }],
          next_member_id := st.next_member_id + 1 } : Store).members.find?
            (fun m => m.class_id == cls.id && m.user_id == student.id) =
          some { id := st.next_member_id, class_id := cls.id, user_id := student.id,
                 role := "student", status := "pending" } := by
        simp only [List.find?_append, hnone, Option.none_or]
        simp
      simp [student_join_class, hs, hc, hfind2]
    · rw [hfirst]
      have hfilter : st.members.filter
          (fun m => m.class_id == cls.id && m.user_id == student.id) = [] :=
        List.filter_eq_nil_iff.mpr (List.find?_eq_none.mp hnone)
      simp [List.filter_append, hfilter]
    · rw [hfirst]
      intro m hm
      have hfilter : st.members.filter
          (fun m => m.class_id == cls.id && m.user_id == student.id) = [] :=
        List.filter_eq_nil_iff.mpr (List.find?_eq_none.mp hnone)
      simp only [List.filter_append, hfilter, List.nil_append] at hm
      simp at hm
      subst hm
      rfl

/-- Witness for C1: in the fixture store, the student joining with the
lowercased code gets a pending row, and a second identical call is a
no-op that reports the request as already pending. -/
theorem student_join_class_policy_witness :
    student_join_class { student_email := "a@x.com", code := "abc1" } baseStore =
      (.ok "Join request sent",
        { baseStore with
          members := baseStore.members ++
            [{ id := 2, class_id := 1, user_id := 2,
               role := "student", status := "pending" }],
          next_member_id := 3 }) ∧
    student_join_class { student_email := "a@x.com", code := "abc1" }
        (student_join_class { student_email := "a@x.com", code := "abc1" } baseStore).2 =
      (.ok "Request already pending",
        (student_join_class { student_email := "a@x.com", code := "abc1" } baseStore).2) := by
  have h := (student_join_class_policy { student_email := "a@x.com", code := "abc1" }
      baseStore studentS classA (by decide) (by decide)).2 (by decide)
  exact ⟨h.1, h.2.1⟩

-- ==================================================================
-- Claim C7 (confirmed): DeleteMessage authorization
-- ==================================================================

/-- Claim C7: DeleteMessage succeeds only when teacher_email resolves
to a teacher who owns class_id; otherwise it fails with Forbidden
(HTTP 403) and leaves the store, hence the target message, unchanged;
and it fails with NotFound when no message with the given id exists in
that class (absent, or belonging to a different class). -/
theorem delete_message_auth (cid mid : Nat) (te : String) (st : Store)
    (hne : te ≠ "") :
    (st.users.find?
        (fun u => u.email == pyNormLower te && u.role == "teacher") = none →
      delete_message cid mid (some te) st =
        (.httpError 403 "Teacher not found", st)) ∧
    (∀ t, st.users.find?
        (fun u => u.email == pyNormLower te && u.role == "teacher") = some t →
      st.classes.find? (fun c => c.id == cid && c.owner_id == t.id) = none →
      delete_message cid mid (some te) st =
        (.httpError 403 "You are not the owner of this class", st)) ∧
    (∀ t c, st.users.find?
        (fun u => u.email == pyNormLower te && u.role == "teacher") = some t →
      st.classes.find? (fun x => x.id == cid && x.owner_id == t.id) = some c →
      st.messages.find? (fun m => m.id == mid && m.class_id == cid) = none →
      delete_message cid mid (some te) st = (.httpError 404 "Message not found", st)) ∧
    (∀ t c msg, st.users.find?
        (fun u => u.email == pyNormLower te && u.role == "teacher") = some t →
      st.classes.find? (fun x => x.id == cid && x.owner_id == t.id) = some c →
      st.messages.find? (fun m => m.id == mid && m.class_id == cid) = some msg →
      delete_message cid mid (some te) st = (.ok "Message deleted",
        { st with messages := st.messages.filter (fun m => m.id != msg.id) })) ∧
    (∀ r st', delete_message cid mid (some te) st = (.ok r, st') →
      ∃ t, st.users.find?
          (fun u => u.email == pyNormLower te && u.role == "teacher") = some t ∧
        ∃ c, st.classes.find? (fun x => x.id == cid && x.owner_id == t.id) = some c) := by
  have hbe : (te == "") = false := beq_eq_false_iff_ne.mpr hne
  refine ⟨?_, ?_, ?_, ?_, ?_⟩
  · intro h
    simp [delete_message, hbe, h]
  · intro t ht hc
    simp [delete_message, hbe, ht, hc]
  · intro t c ht hc hm
    simp [delete_message, hbe, ht, hc, hm]
  · intro t c msg ht hc hm
    simp [delete_message, hbe, ht, hc, hm]
  · intro r st' h
    simp only [delete_message, hbe, Bool.false_eq_true, if_false] at h
    cases ht : st.users.find?
        (fun u => u.email == pyNormLower te && u.role == "teacher") with
    | none => simp only [ht] at h; simp at h
    | some t =>
      simp only [ht] at h
      cases hc : st.classes.find? (fun c => c.id == cid && c.owner_id == t.id) with
      | none => simp only [hc] at h; simp at h
      | some c => exact ⟨t, rfl, c, hc⟩

/-- Witness for C7: teacher B, who does not own the fixture class,
attempts to delete its message and gets Forbidden with the store
unchanged. -/
theorem delete_message_auth_witness :
    delete_message 1 1 (some "b@x.com") baseStore =
      (.httpError 403 "You are not the owner of this class", baseStore) :=
  (delete_message_auth 1 1 "b@x.com" baseStore (by decide)).2.1 teacherB
    (by decide) (by decide)

-- ==================================================================
-- Claim C6 (confirmed): ListMessages ordering
-- ==================================================================

/-- The ordering claimed for returned messages: (timestamp, id)
lexicographically ascending, id as the tie-break. -/
def outLe (a b : MessageOut) : Prop :=
  a.timestamp < b.timestamp ∨ (a.timestamp = b.timestamp ∧ a.id ≤ b.id)

/-- The boolean ORDER BY comparison, unfolded to its meaning. -/
theorem msgLe_iff (a b : Message) :
    msgLe a b = true ↔
      (a.timestamp < b.timestamp ∨ (a.timestamp = b.timestamp ∧ a.id ≤ b.id)) := by
  simp [msgLe, Nat.blt_eq, Nat.ble_eq]

/-- The ORDER BY comparison is transitive. -/
theorem msgLe_trans : ∀ a b c : Message, msgLe a b → msgLe b c → msgLe a c := by
  intro a b c hab hbc
  rw [msgLe_iff] at *
  omega

/-- The ORDER BY comparison is total. -/
theorem msgLe_total : ∀ a b : Message, (msgLe a b || msgLe b a) = true := by
  intro a b
  rw [Bool.or_eq_true, msgLe_iff, msgLe_iff]
  omega

/-- Strict (timestamp, id) order on message rows. -/
def msgLt (a b : Message) : Prop :=
  a.timestamp < b.timestamp ∨ (a.timestamp = b.timestamp ∧ a.id < b.id)

instance : IsAntisymm Message msgLt where
  antisymm a b h1 h2 := by
    exfalso
    rcases h1 with h | ⟨e, h⟩ <;> rcases h2 with h2 | ⟨e2, h2⟩ <;> omega

/-- Sorting rows with pairwise-distinct primary keys by the ORDER BY
comparison yields a strictly ordered list. -/
theorem mergeSort_pairwise_strict (msgs : List Message)
    (hnd : msgs.Pairwise (fun a b => a.id ≠ b.id)) :
    (msgs.mergeSort msgLe).Pairwise msgLt := by
  have hs := List.sorted_mergeSort msgLe_trans msgLe_total msgs
  have hnd2 : (msgs.mergeSort msgLe).Pairwise (fun a b => a.id ≠ b.id) :=
    ((List.mergeSort_perm msgs msgLe).pairwise_iff (fun h => h.symm)).mpr hnd
  refine (hs.and hnd2).imp ?_
  intro a b hab
  obtain ⟨h1, h2⟩ := hab
  rw [msgLe_iff] at h1
  unfold msgLt
  omega

/-- Claim C6: for a known class id, ListMessages returns exactly the
stored messages of that class and channel, sorted by (timestamp
ascending, id ascending) with id as the tie-break; given distinct
primary keys the result is independent of the insertion order of the
rows; an unknown class id fails with NotFound. -/
theorem get_class_messages_sorted (cid : Nat) (ch : String) (st st2 : Store)
    (hids : st.messages.Pairwise (fun a b => a.id ≠ b.id)) :
    (∀ c, st.classes.find? (fun x => x.id == cid) = some c →
      ∃ l, get_class_messages cid ch st = .ok l ∧
        List.Pairwise outLe l ∧
        l.Perm ((st.messages.filter
          (fun m => m.class_id == cid && m.channel == ch)).map message_to_out)) ∧
    (st2.classes = st.classes → st2.messages.Perm st.messages →
      get_class_messages cid ch st2 = get_class_messages cid ch st) ∧
    (st.classes.find? (fun x => x.id == cid) = none →
      get_class_messages cid ch st = .httpError 404 "Class not found") := by
  refine ⟨?_, ?_, ?_⟩
  · intro c hc
    have heq : get_class_messages cid ch st = .ok (((st.messages.filter
        (fun m => m.class_id == cid && m.channel == ch)).mergeSort msgLe).map
          message_to_out) := by
      simp [get_class_messages, hc]
    refine ⟨_, heq, ?_, ?_⟩
    · rw [List.pairwise_map]
      have hp := List.sorted_mergeSort msgLe_trans msgLe_total
        (st.messages.filter (fun m => m.class_id == cid && m.channel == ch))
      refine hp.imp ?_
      intro a b hab
      rw [msgLe_iff] at hab
      exact hab
    · exact (List.mergeSort_perm _ msgLe).map message_to_out
  · intro hcls hperm
    unfold get_class_messages
    rw [hcls]
    cases hc : st.classes.find? (fun x => x.id == cid) with
    | none => rfl
    | some c =>
      have hfperm : (st2.messages.filter
            (fun m => m.class_id == cid && m.channel == ch)).Perm
          (st.messages.filter (fun m => m.class_id == cid && m.channel == ch)) :=
        hperm.filter _
      have hndSt : (st.messages.filter
            (fun m => m.class_id == cid && m.channel == ch)).Pairwise
          (fun a b => a.id ≠ b.id) := hids.filter _
      have hndSt2 : (st2.messages.filter
            (fun m => m.class_id == cid && m.channel == ch)).Pairwise
          (fun a b => a.id ≠ b.id) :=
        (hfperm.pairwise_iff (fun h => h.symm)).mpr hndSt
      have e : (st2.messages.filter
            (fun m => m.class_id == cid && m.channel == ch)).mergeSort msgLe =
          (st.messages.filter
            (fun m => m.class_id == cid && m.channel == ch)).mergeSort msgLe := by
        have hsort1 : List.Sorted msgLt ((st2.messages.filter
            (fun m => m.class_id == cid && m.channel == ch)).mergeSort msgLe) :=
          mergeSort_pairwise_strict _ hndSt2
        have hsort2 : List.Sorted msgLt ((st.messages.filter
            (fun m => m.class_id == cid && m.channel == ch)).mergeSort msgLe) :=
          mergeSort_pairwise_strict _ hndSt
        exact List.eq_of_perm_of_sorted
          ((List.mergeSort_perm _ msgLe).trans
            (hfperm.trans (List.mergeSort_perm _ msgLe).symm)) hsort1 hsort2
      rw [e]
  · intro h
    simp [get_class_messages, h]

/-- Fixture: a second message with the same timestamp as msg1. -/
def msg2 : Message :=
  { id := 2, class_id := 1, channel := "general", sender_email := "t@x.com",
    sender_name := "Teacher A", content := "yo", timestamp := 5 }

/-- Fixture store holding msg1 before msg2. -/
def storeAB : Store := { baseStore with messages := [msg1, msg2], next_message_id := 3 }

/-- Fixture store holding the same rows inserted in the other order. -/
def storeBA : Store := { baseStore with messages := [msg2, msg1], next_message_id := 3 }

/-- Witness for C6: on a store with two same-timestamp messages the
listing is ordered and is the same for either insertion order. -/
theorem get_class_messages_sorted_witness :
    (∃ l, get_class_messages 1 "general" storeBA = .ok l ∧
      List.Pairwise outLe l ∧
      l.Perm ((storeBA.messages.filter
        (fun m => m.class_id == 1 && m.channel == "general")).map message_to_out)) ∧
    get_class_messages 1 "general" storeAB = get_class_messages 1 "general" storeBA := by
  constructor
  · exact (get_class_messages_sorted 1 "general" storeBA storeAB
      (by decide)).1 classA (by decide)
  · exact (get_class_messages_sorted 1 "general" storeBA storeAB
      (by decide)).2.1 (by decide) (by decide)

-- ==================================================================
-- Claim C8: round-trip of the attachment serialization
-- ==================================================================

/-- Hex digits decode what they encode. -/
theorem hexDigitVal_hexDigitChar : ∀ n, n < 16 → hexDigitVal (hexDigitChar n) = some n := by
  decide

/-- The string-body parser inverts the escaper: parsing the escaped
body followed by the closing quote recovers the characters and leaves
the rest of the input untouched. -/
theorem parseStrBody_escape (l rest : List Char) :
    parseStrBody (escapeBody l ++ '"' :: rest) = some (l, rest) := by
  induction l with
  | nil =>
    simp only [escapeBody, List.nil_append]
    rw [parseStrBody.eq_def]
    simp
  | cons c cs ih =>
    simp only [escapeBody, List.append_assoc]
    rw [parseStrBody.eq_def]
    by_cases h1 : c = '"'
    · subst h1
      simp [escapeChar, unescapeChar, ih]
    by_cases h2 : c = '\\'
    · subst h2
      simp [escapeChar, unescapeChar, ih]
    by_cases h3 : c = '\n'
    · subst h3
      simp [escapeChar, unescapeChar, ih]
    by_cases h4 : c = '\r'
    · subst h4
      simp [escapeChar, unescapeChar, ih]
    by_cases h5 : c = '\t'
    · subst h5
      simp [escapeChar, unescapeChar, ih]
    by_cases h6 : c.toNat = 8
    · have hc : Char.ofNat 8 = c := by rw [← h6, Char.ofNat_toNat]
      simp only [escapeChar, h1, h2, h3, h4, h5, h6, if_true, if_false,
        if_neg h1, if_neg h2, if_neg h3, if_neg h4, if_neg h5]
      simp [unescapeChar, ih]
      exact hc
    by_cases h7 : c.toNat = 12
    · have hc : Char.ofNat 12 = c := by rw [← h7, Char.ofNat_toNat]
      simp only [escapeChar, h1, h2, h3, h4, h5, h6, h7, if_true, if_false,
        if_neg h1, if_neg h2, if_neg h3, if_neg h4, if_neg h5]
      simp [unescapeChar, ih]
      exact hc
    by_cases h8 : c.toNat < 32
    · have hv1 : hexDigitVal (hexDigitChar (c.toNat / 16)) = some (c.toNat / 16) :=
        hexDigitVal_hexDigitChar _ (by omega)
      have hv2 : hexDigitVal (hexDigitChar (c.toNat % 16)) = some (c.toNat % 16) :=
        hexDigitVal_hexDigitChar _ (by omega)
      have hofNat : Char.ofNat (16 * (c.toNat / 16) + c.toNat % 16) = c := by
        have harith : 16 * (c.toNat / 16) + c.toNat % 16 = c.toNat := by omega
        rw [harith, Char.ofNat_toNat]
      simp [escapeChar, h1, h2, h3, h4, h5, h6, h7, h8,
        hv1, hv2, hofNat, ih, show hexDigitVal '0' = some 0 by decide]
    · simp [escapeChar, h1, h2, h3, h4, h5, h6, h7, h8, ih]

/-- The ordered key/value list json.dumps writes for one attachment. -/
def dictOfAttachment (a : AttachmentMeta) : List (String × String) :=
  [("filename", a.filename), ("url", a.url), ("content_type", a.content_type)]

/-- Key/value parsing inverts the pair rendering. -/
theorem parseKV_render (k v : String) (rest : List Char) :
    parseKV ('"' :: (escapeBody k.data ++ '"' :: ':' :: ' ' :: '"' ::
        (escapeBody v.data ++ '"' :: rest))) = some ((k, v), rest) := by
  simp [parseKV, parseStrBody_escape]

/-- An object whose body opens with a quote is parsed via the pair
list parser. -/
theorem parseObj_cons_quote (fuel : Nat) (cs : List Char) :
    parseObj fuel ('\x7b' :: '"' :: cs) = parsePairs fuel ('"' :: cs) := rfl

/-- One non-final key/value pair consumes one unit of fuel. -/
theorem parsePairs_step (fuel : Nat) (k v : String) (r2 : List Char) :
    parsePairs (fuel + 1) ('"' :: (escapeBody k.data ++ '"' :: ':' :: ' ' :: '"' ::
        (escapeBody v.data ++ '"' :: ',' :: ' ' :: r2))) =
      (match parsePairs fuel r2 with
       | some (kvs, r3) => some ((k, v) :: kvs, r3)
       | none => none) := by
  rw [parsePairs.eq_def]
  simp [parseKV_render]

/-- The final key/value pair before the closing brace. -/
theorem parsePairs_last (fuel : Nat) (k v : String) (r2 : List Char) :
    parsePairs (fuel + 1) ('"' :: (escapeBody k.data ++ '"' :: ':' :: ' ' :: '"' ::
        (escapeBody v.data ++ '"' :: '\x7d' :: r2))) = some ([(k, v)], r2) := by
  rw [parsePairs.eq_def]
  simp [parseKV_render]

/-- Object parsing inverts the attachment rendering. -/
theorem parseObj_render (a : AttachmentMeta) (rest : List Char) (f : Nat) :
    parseObj (f + 3) (renderAttachment a ++ rest) = some (dictOfAttachment a, rest) := by
  simp only [renderAttachment, renderPair, qstr, List.cons_append, List.append_assoc,
    List.nil_append]
  rw [parseObj_cons_quote]
  rw [show f + 3 = (f + 2) + 1 from rfl, parsePairs_step]
  rw [show f + 2 = (f + 1) + 1 from rfl, parsePairs_step]
  rw [parsePairs_last]
  rfl

/-- Rendering an attachment list produces at least one character per
attachment. -/
theorem le_length_renderItems : ∀ l : List AttachmentMeta,
    l.length ≤ (renderItems l).length := by
  intro l
  induction l with
  | nil => simp [renderItems]
  | cons a tl ih =>
    cases tl with
    | nil =>
      simp only [renderItems, List.length_cons, List.length_nil]
      have h1 : renderAttachment a = '\x7b' :: (renderPair "filename" a.filename ++
          ',' :: ' ' :: renderPair "url" a.url ++
          ',' :: ' ' :: renderPair "content_type" a.content_type ++ ['\x7d']) := rfl
      rw [h1]
      simp
    | cons b tl2 =>
      simp only [renderItems, List.length_append, List.length_cons] at ih ⊢
      have h1 : renderAttachment a = '\x7b' :: (renderPair "filename" a.filename ++
          ',' :: ' ' :: renderPair "url" a.url ++
          ',' :: ' ' :: renderPair "content_type" a.content_type ++ ['\x7d']) := rfl
      rw [h1]
      simp only [List.length_cons]
      omega

/-- Array-item parsing inverts the array rendering, given enough fuel. -/
theorem parseItems_render : ∀ (l : List AttachmentMeta) (rest : List Char) (fuel : Nat),
    l ≠ [] → l.length + 3 ≤ fuel →
    parseItems fuel (renderItems l ++ ']' :: rest) = some (l.map dictOfAttachment, rest) := by
  intro l
  induction l with
  | nil => intro rest fuel h _; exact absurd rfl h
  | cons a tl ih =>
    intro rest fuel hne hfuel
    obtain ⟨f, rfl⟩ : ∃ f, fuel = f + 1 := ⟨fuel - 1, by omega⟩
    rw [parseItems.eq_def]
    cases tl with
    | nil =>
      simp only [renderItems]
      have hobj : parseObj f (renderAttachment a ++ ']' :: rest) =
          some (dictOfAttachment a, ']' :: rest) := by
        obtain ⟨g, rfl⟩ : ∃ g, f = g + 3 := ⟨f - 3, by simp at hfuel; omega⟩
        exact parseObj_render a (']' :: rest) g
      simp [hobj]
    | cons b tl2 =>
      simp only [renderItems, List.append_assoc, List.cons_append]
      have hobj : parseObj f (renderAttachment a ++
            (',' :: ' ' :: (renderItems (b :: tl2) ++ ']' :: rest))) =
          some (dictOfAttachment a, ',' :: ' ' :: (renderItems (b :: tl2) ++ ']' :: rest)) := by
        obtain ⟨g, rfl⟩ : ∃ g, f = g + 3 := ⟨f - 3, by simp at hfuel; omega⟩
        exact parseObj_render a _ g
      have hrec : parseItems f (renderItems (b :: tl2) ++ ']' :: rest) =
          some ((b :: tl2).map dictOfAttachment, rest) := by
        refine ih rest f (by simp) ?_
        simp only [List.length_cons] at hfuel ⊢
        omega
      simp [hobj, hrec]

/-- The serializer/deserializer pair of main.py is lossless: parsing
the dumped attachment list recovers every object, in order. -/
theorem json_loads_dumps (l : List AttachmentMeta) :
    json_loads_list (json_dumps_attachments l) = some (l.map dictOfAttachment) := by
  cases l with
  | nil => rfl
  | cons a tl =>
    obtain ⟨Y, hY⟩ : ∃ Y, renderItems (a :: tl) = '\x7b' :: Y := by
      cases tl <;> exact ⟨_, rfl⟩
    have hlen : (json_dumps_attachments (a :: tl)).length =
        (renderItems (a :: tl)).length + 2 := by
      have hd : (json_dumps_attachments (a :: tl)).length =
          ('[' :: (renderItems (a :: tl) ++ [']'])).length := rfl
      rw [hd]
      simp
    have hitems := parseItems_render (a :: tl) []
      ((json_dumps_attachments (a :: tl)).length + 1) (by simp)
      (by have := le_length_renderItems (a :: tl); simp only [List.length_cons] at *; omega)
    rw [hY] at hitems
    simp only [List.cons_append] at hitems
    have hd2 : (json_dumps_attachments (a :: tl)).data =
        '[' :: '\x7b' :: (Y ++ [']']) := by
      have : (json_dumps_attachments (a :: tl)).data =
          '[' :: (renderItems (a :: tl) ++ [']']) := rfl
      rw [this, hY]
      rfl
    rw [json_loads_list.eq_def, hd2]
    rw [show (Y ++ [']'] : List Char) = Y ++ ']' :: [] from rfl] at *
    simp [hitems]

/-- Rebuilding an attachment from its dumped object is the identity. -/
theorem attachmentOfDict_dictOf (a : AttachmentMeta) :
    attachmentOfDict (dictOfAttachment a) = a := rfl

/-- The response builder returns exactly the serialized attachment
descriptors, in order. -/
theorem message_to_out_attachments (msg : Message) (atts : List AttachmentMeta)
    (h : msg.attachments_json = json_dumps_attachments atts) :
    (message_to_out msg).attachments = atts := by
  simp only [message_to_out, h, json_loads_dumps, List.map_map]
  have : atts.map (attachmentOfDict ∘ dictOfAttachment) = atts.map id :=
    List.map_congr_left (fun a _ => attachmentOfDict_dictOf a)
  rw [this, List.map_id]

/-- The message row built by post_class_message (main.py). -/
def newMessage (cid : Nat) (d : MessageCreate) (now : Nat) (st : Store) : Message :=
  { id := st.next_message_id, class_id := cid, channel := d.channel,
    sender_email := d.sender_email, sender_name := d.sender_name,
    content := d.content,
    attachments_json := json_dumps_attachments d.attachments,
    timestamp := now }

/-- The store after a successful post_class_message. -/
def stPost (cid : Nat) (d : MessageCreate) (now : Nat) (st : Store) : Store :=
  { st with messages := st.messages ++ [newMessage cid d now st],
            next_message_id := st.next_message_id + 1 }

/-- Claim C8: for every list of attachment descriptors, PostMessage
followed by ListMessages returns exactly those descriptors with
identical filename, url and content_type, in the original order: the
serialization of the descriptor list into the text column and its
deserialization on retrieval compose to the identity.  The posted
message (identified by its fresh primary key) appears in the listing
with exactly the posted attachment list, and the PostMessage response
itself echoes it. -/
theorem post_then_list_roundtrip (cid : Nat) (d : MessageCreate) (now : Nat)
    (st : Store) (c : Class)
    (hc : st.classes.find? (fun x => x.id == cid) = some c) :
    ∃ out st', post_class_message cid d now st = (.ok out, st') ∧
      out.attachments = d.attachments ∧
      out.id = st.next_message_id ∧
      ∃ l, get_class_messages cid d.channel st' = .ok l ∧
        ∃ o ∈ l, o.id = st.next_message_id ∧ o.attachments = d.attachments := by
  have hpost : post_class_message cid d now st =
      (.ok (message_to_out (newMessage cid d now st)), stPost cid d now st) := by
    simp [post_class_message, hc, newMessage, stPost]
  refine ⟨_, _, hpost, message_to_out_attachments _ _ rfl, rfl, ?_⟩
  have hlist : get_class_messages cid d.channel (stPost cid d now st) =
      .ok ((((stPost cid d now st).messages.filter
        (fun m => m.class_id == cid && m.channel == d.channel)).mergeSort
          msgLe).map message_to_out) := by
    simp [get_class_messages, stPost, hc]
  refine ⟨_, hlist, message_to_out (newMessage cid d now st), ?_, rfl,
    message_to_out_attachments _ _ rfl⟩
  refine List.mem_map_of_mem message_to_out ?_
  refine (List.mergeSort_perm _ msgLe).mem_iff.mpr ?_
  refine List.mem_filter.mpr ⟨?_, by simp [newMessage]⟩
  show newMessage cid d now st ∈ (stPost cid d now st).messages
  simp [stPost]

/-- Fixture request: a post with one attachment descriptor. -/
def postReq : MessageCreate :=
  { channel := "general", sender_email := "a@x.com", sender_name := "Student S",
    content := "see attached",
    attachments := [{ filename := "notes.pdf", url := "/uploads/x.pdf",
                      content_type := "application/pdf" }] }

/-- Witness for C8: posting a message with one attachment to the
fixture class and listing the channel returns that descriptor. -/
theorem post_then_list_roundtrip_witness :
    ∃ out st', post_class_message 1 postReq 9 baseStore = (.ok out, st') ∧
      out.attachments = postReq.attachments ∧
      out.id = 2 ∧
      ∃ l, get_class_messages 1 "general" st' = .ok l ∧
        ∃ o ∈ l, o.id = 2 ∧ o.attachments = postReq.attachments :=
  post_then_list_roundtrip 1 postReq 9 baseStore classA (by decide)

-- ==================================================================
-- Claim C10 (confirmed): at most one admin ever exists
-- ==================================================================

/-- Number of users with role admin in a user list. -/
def adminCountL (l : List User) : Nat := l.countP (fun u => u.role == "admin")

/-- Number of stored admin users. -/
def adminCount (st : Store) : Nat := adminCountL st.users

/-- Primary-key sanity of the users table: ids are unique and below
the auto-increment counter. -/
def UsersOkL (l : List User) (next : Nat) : Prop :=
  (l.map User.id).Nodup ∧ ∀ x ∈ l, x.id < next

/-- The inductive invariant: sane users table, at most one admin. -/
def Inv (st : Store) : Prop :=
  UsersOkL st.users st.next_user_id ∧ adminCount st ≤ 1

theorem usersOkL_append {l : List User} {next : Nat} (h : UsersOkL l next)
    {u : User} (hu : u.id = next) : UsersOkL (l ++ [u]) (next + 1) := by
  obtain ⟨hnd, hb⟩ := h
  constructor
  · rw [List.map_append, List.nodup_append]
    refine ⟨hnd, List.nodup_singleton _, ?_⟩
    intro a ha hmem
    simp only [List.map_cons, List.map_nil, List.mem_singleton] at hmem
    obtain ⟨x, hx, rfl⟩ := List.mem_map.mp ha
    have := hb x hx
    omega
  · intro x hx
    rcases List.mem_append.mp hx with hx | hx
    · exact Nat.lt_succ_of_lt (hb x hx)
    · simp only [List.mem_singleton] at hx
      subst hx
      omega

theorem adminCountL_append (l : List User) (u : User) :
    adminCountL (l ++ [u]) =
      adminCountL l + (if u.role == "admin" then 1 else 0) := by
  simp [adminCountL, List.countP_append, List.countP_cons]

theorem usersOkL_filter {l : List User} {next : Nat} (h : UsersOkL l next)
    (p : User → Bool) : UsersOkL (l.filter p) next := by
  obtain ⟨hnd, hb⟩ := h
  refine ⟨List.Nodup.sublist (List.Sublist.map User.id (List.filter_sublist l)) hnd, ?_⟩
  intro x hx
  exact hb x (List.mem_of_mem_filter hx)

theorem adminCountL_filter_le (l : List User) (p : User → Bool) :
    adminCountL (l.filter p) ≤ adminCountL l := by
  unfold adminCountL
  rw [List.countP_filter]
  exact List.countP_mono_left (fun x hx h => by
    rw [Bool.and_eq_true] at h
    exact h.1)

theorem usersOkL_map_update {l : List User} {next : Nat} (h : UsersOkL l next)
    (u₀ u₁ : User) (hid : u₁.id = u₀.id) :
    UsersOkL (l.map (fun x => if x.id == u₀.id then u₁ else x)) next ∧
    (u₀ ∈ l → u₁.role = u₀.role →
      adminCountL (l.map (fun x => if x.id == u₀.id then u₁ else x)) = adminCountL l) := by
  obtain ⟨hnd, hb⟩ := h
  have hids : ∀ x : User, ((fun x => if x.id == u₀.id then u₁ else x) x).id = x.id := by
    intro x
    by_cases hbe : x.id == u₀.id
    · simp only [hbe, if_true]
      rw [hid, beq_iff_eq.mp hbe]
    · simp [hbe]
  have hmapid : (l.map (fun x => if x.id == u₀.id then u₁ else x)).map User.id =
      l.map User.id := by
    rw [List.map_map]
    exact List.map_congr_left (fun x _ => hids x)
  refine ⟨⟨by rw [hmapid]; exact hnd, ?_⟩, ?_⟩
  · intro x hx
    obtain ⟨y, hy, rfl⟩ := List.mem_map.mp hx
    rw [show (User.id _ = _) from congrArg User.id rfl]
    rw [hids y]
    exact hb y hy
  · intro hmem hrole
    unfold adminCountL
    rw [List.countP_map]
    refine List.countP_congr ?_
    intro x hx
    show ((if x.id == u₀.id then u₁ else x).role == "admin") = true ↔
      (x.role == "admin") = true
    by_cases hbe : x.id == u₀.id
    · have hxeq : x = u₀ :=
        List.inj_on_of_nodup_map hnd hx hmem (beq_iff_eq.mp hbe)
      subst hxeq
      simp [hrole]
    · simp [hbe]

/-- Stores sharing the users table and its counter share the invariant. -/
theorem inv_of_same {st st' : Store} (hu : st'.users = st.users)
    (hn : st'.next_user_id = st.next_user_id) (h : Inv st) : Inv st' := by
  unfold Inv UsersOkL adminCount adminCountL at *
  rw [hu, hn]
  exact h

theorem inv_register_student (d : StudentRegister) (st : Store) (h : Inv st) :
    Inv (register_student d st).2 := by
  unfold register_student
  dsimp only
  split
  · exact h
  · split
    · exact h
    · obtain ⟨hok, hcount⟩ := h
      refine ⟨usersOkL_append hok rfl, ?_⟩
      show adminCountL (st.users ++ [_]) ≤ 1
      rw [adminCountL_append]
      simpa using hcount

theorem inv_create_teacher (d : TeacherCreate) (st : Store) (h : Inv st) :
    Inv (create_teacher d st).2 := by
  unfold create_teacher
  dsimp only
  split
  · exact h
  · split
    · exact h
    · obtain ⟨hok, hcount⟩ := h
      refine ⟨usersOkL_append hok rfl, ?_⟩
      show adminCountL (st.users ++ [_]) ≤ 1
      rw [adminCountL_append]
      simpa using hcount

theorem inv_register_admin (d : AdminRegister) (st : Store) (h : Inv st) :
    Inv (register_admin d st).2 := by
  cases hfind : st.users.find? (fun u => u.role == "admin") with
  | some u =>
    simp only [register_admin, hfind]
    exact h
  | none =>
    cases hmail : st.users.find? (fun u => u.email == pyNormLower d.email) with
    | some u =>
      simp only [register_admin, hfind, hmail]
      exact h
    | none =>
      simp only [register_admin, hfind, hmail]
      obtain ⟨hok, -⟩ := h
      refine ⟨usersOkL_append hok rfl, ?_⟩
      have h0 : adminCountL st.users = 0 := by
        rw [adminCountL, List.countP_eq_zero]
        exact List.find?_eq_none.mp hfind
      show adminCountL (st.users ++ [_]) ≤ 1
      rw [adminCountL_append, h0]
      simp

theorem inv_delete_teacher (tid : Nat) (st : Store) (h : Inv st) :
    Inv (delete_teacher tid st).2 := by
  unfold delete_teacher
  split
  · exact h
  · obtain ⟨hok, hcount⟩ := h
    refine ⟨usersOkL_filter hok _, ?_⟩
    exact le_trans (adminCountL_filter_le _ _) hcount

theorem inv_delete_student (sid : Nat) (st : Store) (h : Inv st) :
    Inv (delete_student sid st).2 := by
  unfold delete_student
  split
  · exact h
  · obtain ⟨hok, hcount⟩ := h
    refine ⟨usersOkL_filter hok _, ?_⟩
    exact le_trans (adminCountL_filter_le _ _) hcount

theorem inv_upload_avatar (e ct url : String) (st : Store) (h : Inv st) :
    Inv (upload_avatar e ct url st).2 := by
  cases hfind : st.users.find? (fun u => u.email == pyNormLower e) with
  | none =>
    simp only [upload_avatar, hfind]
    exact h
  | some u =>
    simp only [upload_avatar, hfind]
    by_cases hct : ct.startsWith "image/"
    · simp only [hct, Bool.not_true, Bool.false_eq_true, if_false]
      obtain ⟨hok, hcount⟩ := h
      have hmem := List.mem_of_find?_eq_some hfind
      have hm := usersOkL_map_update hok u { u with avatar_url := some url } rfl
      refine ⟨hm.1, ?_⟩
      show adminCountL _ ≤ 1
      rw [hm.2 hmem rfl]
      exact hcount
    · simp only [Bool.not_eq_true] at hct
      simp only [hct, Bool.not_false, if_true]
      exact h

theorem create_class_run_users (d : CreateClassRequest) (st : Store) :
    ∀ s' ∈ (create_class_run d st).2,
      s'.users = st.users ∧ s'.next_user_id = st.next_user_id := by
  intro s' hs'
  simp only [create_class_run] at hs'
  split at hs'
  · simp at hs'
  · split at hs'
    · simp at hs'
    · split at hs'
      · simp at hs'
      · split at hs'
        · simp only [List.mem_singleton] at hs'
          subst hs'
          exact ⟨rfl, rfl⟩
        · simp only [List.mem_cons, List.mem_singleton, List.not_mem_nil,
            or_false] at hs'
          rcases hs' with hs' | hs' <;> (subst hs'; exact ⟨rfl, rfl⟩)

theorem remove_class_users (d : RemoveClassRequest) (st : Store) :
    (remove_class d st).2.users = st.users ∧
    (remove_class d st).2.next_user_id = st.next_user_id := by
  unfold remove_class remove_class_run
  dsimp only
  split
  · exact ⟨rfl, rfl⟩
  · split
    · exact ⟨rfl, rfl⟩
    · exact ⟨rfl, rfl⟩

theorem student_join_class_users (d : JoinClassRequest) (st : Store) :
    (student_join_class d st).2.users = st.users ∧
    (student_join_class d st).2.next_user_id = st.next_user_id := by
  unfold student_join_class
  dsimp only
  split
  · exact ⟨rfl, rfl⟩
  · split
    · exact ⟨rfl, rfl⟩
    · split
      · split
        · exact ⟨rfl, rfl⟩
        · split
          · exact ⟨rfl, rfl⟩
          · exact ⟨rfl, rfl⟩
      · exact ⟨rfl, rfl⟩

theorem teacher_approve_users (d : ApproveRequest) (st : Store) :
    (teacher_approve d st).2.users = st.users ∧
    (teacher_approve d st).2.next_user_id = st.next_user_id := by
  unfold teacher_approve
  dsimp only
  split
  · exact ⟨rfl, rfl⟩
  · split
    · exact ⟨rfl, rfl⟩
    · exact ⟨rfl, rfl⟩

theorem post_class_message_users (cid : Nat) (d : MessageCreate) (now : Nat) (st : Store) :
    (post_class_message cid d now st).2.users = st.users ∧
    (post_class_message cid d now st).2.next_user_id = st.next_user_id := by
  unfold post_class_message
  dsimp only
  split
  · exact ⟨rfl, rfl⟩
  · exact ⟨rfl, rfl⟩

theorem delete_message_users (cid mid : Nat) (te : Option String) (st : Store) :
    (delete_message cid mid te st).2.users = st.users ∧
    (delete_message cid mid te st).2.next_user_id = st.next_user_id := by
  unfold delete_message
  dsimp only
  split
  · exact ⟨rfl, rfl⟩
  · split
    · exact ⟨rfl, rfl⟩
    · split
      · exact ⟨rfl, rfl⟩
      · split
        · exact ⟨rfl, rfl⟩
        · split
          · exact ⟨rfl, rfl⟩
          · exact ⟨rfl, rfl⟩

/-- Every committed transition of the system preserves the invariant. -/
theorem inv_step {st st' : Store} (h : Inv st) (hs : Step st st') : Inv st' := by
  cases hs with
  | registerStudent d st => exact inv_register_student d st h
  | registerAdmin d st => exact inv_register_admin d st h
  | createTeacher d st => exact inv_create_teacher d st h
  | deleteTeacher tid st => exact inv_delete_teacher tid st h
  | deleteStudent sid st => exact inv_delete_student sid st h
  | uploadAvatar e ct url st => exact inv_upload_avatar e ct url st h
  | createClass d hmem =>
    rename_i hmem
    obtain ⟨hu, hn⟩ := create_class_run_users d st st' hmem
    exact inv_of_same hu hn h
  | removeClass d st =>
    obtain ⟨hu, hn⟩ := remove_class_users d st
    exact inv_of_same hu hn h
  | joinClass d st =>
    obtain ⟨hu, hn⟩ := student_join_class_users d st
    exact inv_of_same hu hn h
  | approve d st =>
    obtain ⟨hu, hn⟩ := teacher_approve_users d st
    exact inv_of_same hu hn h
  | postMessage cid d now st =>
    obtain ⟨hu, hn⟩ := post_class_message_users cid d now st
    exact inv_of_same hu hn h
  | deleteMessage cid mid te st =>
    obtain ⟨hu, hn⟩ := delete_message_users cid mid te st
    exact inv_of_same hu hn h

/-- Claim C10: every store reachable from the empty database holds at
most one admin user, and whenever an admin user is present, admin
registration fails with the Conflict-style "Admin already exists"
error regardless of the requested email, leaving the store unchanged
(no other handler ever creates an admin, as the step relation covers
every state-mutating handler). -/
theorem admin_at_most_one (st : Store) (h : Reachable st) :
    adminCount st ≤ 1 ∧
    (∀ d u, u ∈ st.users → u.role = "admin" →
      register_admin d st = (.httpError 400 "Admin already exists", st)) := by
  have hInv : Inv st := by
    induction h with
    | init =>
      refine ⟨⟨?_, ?_⟩, ?_⟩
      · simp [Store.empty]
      · simp [Store.empty]
      · simp [adminCount, adminCountL, Store.empty]
    | step hr hstep ih => exact inv_step ih hstep
  refine ⟨hInv.2, ?_⟩
  intro d u hu hrole
  cases hfind : st.users.find? (fun x => x.role == "admin") with
  | none =>
    exfalso
    have := List.find?_eq_none.mp hfind u hu
    simp [hrole] at this
  | some a =>
    simp [register_admin, hfind]

/-- Witness for C10: after registering one admin from the empty store,
the reachable state has at most one admin and a second registration is
refused. -/
theorem admin_at_most_one_witness :
    adminCount (register_admin
      { full_name := "Root", email := "root@x.com", password := "p" }
      Store.empty).2 ≤ 1 :=
  (admin_at_most_one _
    (Reachable.step Reachable.init (Step.registerAdmin
      { full_name := "Root", email := "root@x.com", password := "p" }
      Store.empty))).1

end MultiChat
